import Mathlib

/-!
Verification of the per-tick locomotion controller in `src/Controller.py`
(StanfordQuadruped fork).  The only source file of the repository is
`src/src/Controller.py`; the collaborating modules it imports
(`src.State`, `src.Gaits`, `src.StanceController`, `src.SwingLegController`,
`src.Utilities`, `pupper.Kinematics`, `pupper` config) are not present, so
their data shapes are modelled from the specification where needed.

Python semantics that matter for this embedding and are modelled explicitly:
* Exceptions (`AttributeError`, `NameError`, `TypeError`, `KeyError`)
  abort the call; mutations performed before the raise persist, because
  `run` mutates `state` in place.  `run` therefore returns an
  `Except PyErr Unit` together with the (possibly partially updated)
  controller and state.
* For a call `f(a, b)`, Python evaluates the callable `f` before the
  arguments, so `self.inverse_kinematics(hop_foot_locations, config)`
  raises `AttributeError` on `self.inverse_kinematics` (the instance has no
  such attribute) before the undefined name `hop_foot_locations` is reached.
* Reading an attribute never assigned raises `AttributeError`; assigning an
  attribute that did not exist creates it.  The transition block of `run`
  assigns `state.state`, an attribute the `State` data model (spec section 3)
  does not contain, so it is modelled as an `Option BehaviorState` field that
  is `none` on a freshly constructed `State`.
* Indexing a `dict` with a missing key raises `KeyError`; the three
  transition tables are total `BehaviorState → Option BehaviorState`
  functions whose `none` results stand for missing keys.
-/

/-- The `BehaviorState` enum (from `src.State`, modelled from the spec:
five variants DEACTIVATED, REST, TROT, HOP, FINISHHOP). -/
inductive BehaviorState where
  | DEACTIVATED
  | REST
  | TROT
  | HOP
  | FINISHHOP
deriving DecidableEq, Repr

/-- A 3-component column vector of exact rationals (one foot position,
body frame); numpy floating-point values are modelled as rationals. -/
structure Vec3 where
  x : ℚ
  y : ℚ
  z : ℚ
deriving DecidableEq, Repr

/-- A 3×4 numpy matrix stored column-wise: one column per leg.  Used for
`foot_locations`, `default_stance` and (shape-wise) `joint_angles`. -/
structure Mat34 where
  leg0 : Vec3
  leg1 : Vec3
  leg2 : Vec3
  leg3 : Vec3
deriving DecidableEq, Repr

/-- `m + np.array([0, 0, dz])[:, np.newaxis]`: numpy broadcasting adds `dz`
to the z row of every column. -/
def Mat34.addZ (m : Mat34) (dz : ℚ) : Mat34 :=
  ⟨⟨m.leg0.x, m.leg0.y, m.leg0.z + dz⟩,
   ⟨m.leg1.x, m.leg1.y, m.leg1.z + dz⟩,
   ⟨m.leg2.x, m.leg2.y, m.leg2.z + dz⟩,
   ⟨m.leg3.x, m.leg3.y, m.leg3.z + dz⟩⟩

/-- The four per-leg contact flags (`np.zeros(4)`-shaped row). -/
abbrev ContactModes := ℚ × ℚ × ℚ × ℚ

/-- A quaternion (the measured body orientation `state.quat_orientation`). -/
structure Quat where
  w : ℚ
  x : ℚ
  y : ℚ
  z : ℚ
deriving DecidableEq, Repr

/-- Modelled from the spec: `Config` (section 3) — the immutable per-robot
constants this core reads: `default_stance`, `default_z_ref`, `dt`,
`swing_ticks`.  The config module itself is not under `src/`. -/
structure Config where
  default_stance : Mat34
  default_z_ref : ℚ
  dt : ℚ
  swing_ticks : ℚ
deriving DecidableEq, Repr

/-- Modelled from the spec: `Command` (section 3) — continuous fields
(roll, pitch, yaw rate, height) plus the three boolean event flags.
`src/Command.py` is not under `src/`; `Controller.run` reachably reads only
the three event flags. -/
structure Command where
  activate_event : Bool
  trot_event : Bool
  hop_event : Bool
  roll : ℚ
  pitch : ℚ
  yaw_rate : ℚ
  height : ℚ
deriving DecidableEq, Repr

/-- Modelled from the spec: `State` (section 3) — `ticks`, `foot_locations`,
`joint_angles`, `quat_orientation`, `behavior_state`, `contact_modes`.
`src/State.py` is not under `src/`.  The extra field `stateAttr` models the
*dynamic* Python attribute `state.state`, which is not part of the data
model: it does not exist on a freshly constructed `State` (`stateAttr =
none`) and comes into existence only when the transition block of
`Controller.run` executes `state.state = ...`. -/
structure State where
  behavior_state : BehaviorState
  stateAttr : Option BehaviorState
  ticks : ℕ
  foot_locations : Mat34
  joint_angles : Mat34
  contact_modes : ContactModes
  quat_orientation : Quat
deriving DecidableEq, Repr

/-- The Controller instance attributes read by the code paths that are
reachable before an exception: `config`, `smoothed_yaw`, `previous_state`
and the stored `four_legs_inverse_kinematics` collaborator
(all assigned in `Controller.__init__`, `src/Controller.py` lines 18–47).
The remaining `__init__` attributes (the controller's own
`foot_locations` / `contact_modes` / `joint_angles` defaults and the three
gait collaborator objects) are never read by any reachable statement of
`run` or `step_gait` and are listed in `controllerInitAttrs`. -/
structure Ctrl where
  config : Config
  smoothed_yaw : ℚ
  four_legs_inverse_kinematics : Mat34 → Config → Mat34
  previous_state : BehaviorState

/-- The complete list of instance attribute names assigned by
`Controller.__init__` (`src/Controller.py` lines 18–47).  Any
`self.<name>` access with a name outside this list raises
`AttributeError` at runtime. -/
def controllerInitAttrs : List String :=
  ["config", "smoothed_yaw", "four_legs_inverse_kinematics",
   "previous_state", "foot_locations", "contact_modes", "joint_angles",
   "gait_controller", "swing_controller", "stance_controller",
   "hop_transition_mapping", "trot_transition_mapping",
   "activate_transition_mapping"]

/-- Python runtime exceptions raised by `src/Controller.py`. -/
inductive PyErr where
  | attributeError (name : String)
  | nameError (name : String)
  | typeError (callee : String)
  | keyError
deriving DecidableEq, Repr

/-- `self.hop_transition_mapping` (line 45):
`{REST: HOP, HOP: FINISHHOP, FINISHHOP: REST}`; `none` = key missing. -/
def hop_transition_mapping : BehaviorState → Option BehaviorState
  | .REST => some .HOP
  | .HOP => some .FINISHHOP
  | .FINISHHOP => some .REST
  | _ => none

/-- `self.trot_transition_mapping` (line 46): `{REST: TROT, TROT: REST}`. -/
def trot_transition_mapping : BehaviorState → Option BehaviorState
  | .REST => some .TROT
  | .TROT => some .REST
  | _ => none

/-- `self.activate_transition_mapping` (line 47):
`{DEACTIVATED: REST, REST: DEACTIVATED}`. -/
def activate_transition_mapping : BehaviorState → Option BehaviorState
  | .DEACTIVATED => some .REST
  | .REST => some .DEACTIVATED
  | _ => none

/-- `np.clip(x, lo, hi)` on scalars. -/
def np_clip (x lo hi : ℚ) : ℚ := min (max x lo) hi

/-- `correction_factor = 0.8` (`run`, TROT branch, line 115). -/
def correction_factor : ℚ := 4 / 5

/-- `max_tilt = 0.4` (`run`, TROT branch, line 116). -/
def max_tilt : ℚ := 2 / 5

/-- `roll_compensation = correction_factor * np.clip(roll, -max_tilt,
max_tilt)` (line 117), as a function of the decoded roll angle. -/
def roll_compensation (roll : ℚ) : ℚ :=
  correction_factor * np_clip roll (-max_tilt) max_tilt

/-- `pitch_compensation = correction_factor * np.clip(pitch, -max_tilt,
max_tilt)` (line 118), as a function of the decoded pitch angle. -/
def pitch_compensation (pitch : ℚ) : ℚ :=
  correction_factor * np_clip pitch (-max_tilt) max_tilt

/-- `Controller.step_gait(self, ticks, foot_locations, command)`
(lines 50–76), as defined (three parameters besides `self`).
Its first statement is `contact_modes = self.contacts(ticks)`:
`contacts` is not among the attributes `__init__` assigns
(see `controllerInitAttrs`; the gait schedule lives on
`self.gait_controller`), so evaluating `self.contacts` raises
`AttributeError` before anything else in the body runs.  The rest of the
body is unreachable; were it reached it would also fail, on the bare names
`config` (stance arm) and `swing_controller` (swing arm), which are not
defined in the module. -/
def step_gait (c : Ctrl) (ticks : ℕ) (foot_locations : Mat34)
    (command : Command) : Except PyErr (Mat34 × ContactModes) :=
  .error (.attributeError "contacts")

/-- The mode-dispatch half of `Controller.run` (lines 96–175), executed
after the transition block.  Reading `state.state` in the first condition
raises `AttributeError` when the attribute was never assigned.  Branches:
* TROT (lines 96–125): `self.step_gait(state.ticks, state.foot_locations,
  self.config, command)` passes four positional arguments to the
  three-parameter method `step_gait`, so the call itself raises
  `TypeError` (after the four argument expressions, all well defined,
  are evaluated); no mutation happens.
* HOP (lines 127–134): `state.foot_locations` is assigned
  `default_stance + [0,0,-0.09]`, then the callable
  `self.inverse_kinematics` is evaluated — an attribute `__init__` never
  assigns (it assigns `four_legs_inverse_kinematics`) — raising
  `AttributeError` before the undefined name `hop_foot_locations`.
* FINISHHOP (lines 136–143): `state.foot_locations` is assigned
  `default_stance + [0,0,-0.22]`, then the bare name `inverse_kinematics`
  is looked up and raises `NameError`.
* REST (lines 145–175): when `self.previous_state != REST` the statement
  `controller.smoothed_yaw = 0` raises `NameError` (`controller` is not a
  defined name).  Otherwise the augmented assignment to
  `self.smoothed_yaw` evaluates `self.config.dt`, the imported
  `clipped_first_order_filter`, then the argument `self.smoothed_yaw`, and
  then `self.yaw_rate` — an attribute `__init__` never assigns (the yaw
  rate lives on the command) — raising `AttributeError`.  No mutation
  happens in either case.
* DEACTIVATED matches no branch; control falls through to
  `state.ticks += 1` (line 177), the only normal completion. -/
def runDispatch (c : Ctrl) (s : State) : Except PyErr Unit × Ctrl × State :=
  match s.stateAttr with
  | none => (.error (.attributeError "state"), c, s)
  | some .TROT => (.error (.typeError "step_gait"), c, s)
  | some .HOP =>
      (.error (.attributeError "inverse_kinematics"), c,
        {s with foot_locations := c.config.default_stance.addZ (-9/100)})
  | some .FINISHHOP =>
      (.error (.nameError "inverse_kinematics"), c,
        {s with foot_locations := c.config.default_stance.addZ (-22/100)})
  | some .REST =>
      if c.previous_state = .REST then
        (.error (.attributeError "yaw_rate"), c, s)
      else
        (.error (.nameError "controller"), c, s)
  | some .DEACTIVATED => (.ok (), c, {s with ticks := s.ticks + 1})

/-- `Controller.run(self, state, command)` (lines 79–177).  The transition
block (lines 89–94) first:
* `if command.activate_event:` —
  `state.state = self.activate_transition_mapping[state.behavior_state]`:
  the table is keyed on `state.behavior_state` but the result is written to
  the dynamic attribute `state.state`; a missing key raises `KeyError`.
* `elif command.trot_event:` —
  `state.state = self.trot_transition_mapping[state.state]`: reading
  `state.state` raises `AttributeError` when the attribute was never
  assigned; a missing key raises `KeyError`.
* `elif command.hop_event:` — same shape with `hop_transition_mapping`.
`state.behavior_state` is never written anywhere in `run`.  Control then
reaches the dispatch half, `runDispatch`. -/
def run (c : Ctrl) (s : State) (cmd : Command) :
    Except PyErr Unit × Ctrl × State :=
  if cmd.activate_event then
    match activate_transition_mapping s.behavior_state with
    | none => (.error .keyError, c, s)
    | some next => runDispatch c {s with stateAttr := some next}
  else if cmd.trot_event then
    match s.stateAttr with
    | none => (.error (.attributeError "state"), c, s)
    | some cur =>
        match trot_transition_mapping cur with
        | none => (.error .keyError, c, s)
        | some next => runDispatch c {s with stateAttr := some next}
  else if cmd.hop_event then
    match s.stateAttr with
    | none => (.error (.attributeError "state"), c, s)
    | some cur =>
        match hop_transition_mapping cur with
        | none => (.error .keyError, c, s)
        | some next => runDispatch c {s with stateAttr := some next}
  else
    runDispatch c s

/-! ### Concrete fixtures used by the closed theorems -/

/-- A concrete default stance (four distinct foot columns). -/
def stance0 : Mat34 :=
  ⟨⟨1/10, -1/10, 0⟩, ⟨1/10, 1/10, 0⟩, ⟨-1/10, -1/10, 0⟩, ⟨-1/10, 1/10, 0⟩⟩

/-- A concrete configuration. -/
def cfg0 : Config :=
  { default_stance := stance0, default_z_ref := -4/25, dt := 1/50,
    swing_ticks := 12 }

/-- A concrete inverse-kinematics collaborator (never reachably invoked). -/
def ik0 : Mat34 → Config → Mat34 := fun m _ => m

/-- A freshly constructed controller: `smoothed_yaw = 0`,
`previous_state = REST` (lines 25, 29). -/
def ctrl0 : Ctrl :=
  { config := cfg0, smoothed_yaw := 0,
    four_legs_inverse_kinematics := ik0, previous_state := .REST }

/-- A controller whose previous tick was not REST. -/
def ctrlPrevTrot : Ctrl := { ctrl0 with previous_state := .TROT }

/-- The identity quaternion. -/
def quat0 : Quat := ⟨1, 0, 0, 0⟩

/-- A freshly constructed REST state (no `state.state` attribute yet). -/
def state0 : State :=
  { behavior_state := .REST, stateAttr := none, ticks := 0,
    foot_locations := stance0.addZ cfg0.default_z_ref,
    joint_angles := stance0, contact_modes := (0, 0, 0, 0),
    quat_orientation := quat0 }

/-- A state in TROT mode (the dispatched attribute `state.state` set). -/
def stateTROT : State :=
  { state0 with behavior_state := .TROT, stateAttr := some .TROT }

/-- A REST state whose `state.state` attribute has been set. -/
def stateRESTattr : State := { state0 with stateAttr := some .REST }

/-- A state in FINISHHOP mode. -/
def stateFINISH : State :=
  { state0 with behavior_state := .FINISHHOP, stateAttr := some .FINISHHOP }

/-- A state in HOP mode. -/
def stateHOPattr : State :=
  { state0 with behavior_state := .HOP, stateAttr := some .HOP }

/-- A deactivated state whose `state.state` attribute has been set. -/
def stateD : State :=
  { state0 with behavior_state := .DEACTIVATED, stateAttr := some .DEACTIVATED }

/-- A freshly constructed deactivated state (no `state.state` attribute). -/
def stateDfresh : State := { state0 with behavior_state := .DEACTIVATED }

/-- The all-flags-false, all-zeros command. -/
def cmd0 : Command :=
  { activate_event := false, trot_event := false, hop_event := false,
    roll := 0, pitch := 0, yaw_rate := 0, height := 0 }

/-- A command with only the activate event set. -/
def cmdActivate : Command := { cmd0 with activate_event := true }

/-- A command with only the trot event set. -/
def cmdTrot : Command := { cmd0 with trot_event := true }

/-- A command with only the hop event set. -/
def cmdHop : Command := { cmd0 with hop_event := true }

/-! ### Helper lemmas -/

/-- The dispatch half of `run` never mutates the controller instance. -/
theorem runDispatch_ctrl_unchanged (c : Ctrl) (s : State) :
    (runDispatch c s).2.1 = c := by
  unfold runDispatch
  rcases s.stateAttr with _ | st
  · rfl
  · cases st
    · rfl
    · by_cases h : c.previous_state = BehaviorState.REST <;> simp [h]
    · rfl
    · rfl
    · rfl

/-- `run` never mutates the controller instance: no reachable statement
assigns to `self` (the two textual writes, `controller.smoothed_yaw = 0`
and `self.smoothed_yaw += ...`, both raise while being evaluated). -/
theorem run_ctrl_unchanged (c : Ctrl) (s : State) (cmd : Command) :
    (run c s cmd).2.1 = c := by
  unfold run
  by_cases ha : cmd.activate_event <;> simp only [ha]
  · rcases hm : activate_transition_mapping s.behavior_state with _ | next <;>
      simp [hm, runDispatch_ctrl_unchanged]
  · by_cases ht : cmd.trot_event <;> simp only [ht]
    · rcases hs : s.stateAttr with _ | cur
      · simp [hs]
      · rcases hm : trot_transition_mapping cur with _ | next <;>
          simp [hs, hm, runDispatch_ctrl_unchanged]
    · by_cases hh : cmd.hop_event <;> simp only [hh]
      · rcases hs : s.stateAttr with _ | cur
        · simp [hs]
        · rcases hm : hop_transition_mapping cur with _ | next <;>
            simp [hs, hm, runDispatch_ctrl_unchanged]
      · simp [runDispatch_ctrl_unchanged]

/-! ### Claims -/

/-- Claim C1.  The claim says that in TROT mode `run` computes new foot
locations via `step_gait`, applies the transpose of the tilt-compensation
rotation, stores the compensated locations back into the state and passes
exactly those to Kinematics.  In the code the TROT branch instead raises
`TypeError` at the very first statement: `self.step_gait` is called with
four positional arguments against a three-parameter signature, so no foot
location is computed, nothing is stored, and Kinematics is never invoked
(even textually the compensated matrix is left in a local and the
*uncompensated* `state.foot_locations` is what is passed to the
nonexistent `self.inverse_kinematics`). -/
theorem C1_trot_branch_raises_type_error :
    run ctrl0 stateTROT cmd0 =
      (.error (.typeError "step_gait"), ctrl0, stateTROT) := rfl

/-- Claim C2.  The claim says the behavior-state transition is a pure,
non-failing function updating the behavior state per the three tables.
In the code the activate table is keyed on `state.behavior_state` but its
result is written to the *different* dynamic attribute `state.state`, and
`state.behavior_state` is never written: from a deactivated state, an
activate event leaves `behavior_state = DEACTIVATED` (the claim's table
says it becomes REST) while the dispatch attribute becomes REST, whose
branch then raises `AttributeError` on `self.yaw_rate`. -/
theorem C2_behavior_state_never_updated :
    run ctrl0 stateD cmdActivate =
        (.error (.attributeError "yaw_rate"), ctrl0,
          {stateD with stateAttr := some .REST}) ∧
      (run ctrl0 stateD cmdActivate).2.2.behavior_state = .DEACTIVATED :=
  ⟨rfl, rfl⟩

/-- Claim C3, counterexample.  The claim says a fired event whose table has
no entry for the current state leaves the behavior state unchanged rather
than failing.  Concretely, a hop event while in TROT makes
`self.hop_transition_mapping[state.state]` raise `KeyError`: the call
fails. -/
theorem C3_hop_in_trot_raises_keyerror :
    run ctrl0 stateTROT cmdHop = (.error .keyError, ctrl0, stateTROT) := rfl

/-- Claim C3, amended.  Whenever the single fired event's transition table
has no entry for the state it is keyed on, `run` raises `KeyError` and
leaves the state and controller unchanged: the transition tables are
partial, not total. -/
theorem C3_missing_entry_raises_keyerror (c : Ctrl) (s : State)
    (cmd : Command) (cur : BehaviorState)
    (h : (cmd.activate_event = true ∧
            activate_transition_mapping s.behavior_state = none) ∨
         (cmd.activate_event = false ∧ cmd.trot_event = true ∧
            s.stateAttr = some cur ∧ trot_transition_mapping cur = none) ∨
         (cmd.activate_event = false ∧ cmd.trot_event = false ∧
            cmd.hop_event = true ∧ s.stateAttr = some cur ∧
            hop_transition_mapping cur = none)) :
    run c s cmd = (.error .keyError, c, s) := by
  unfold run
  rcases h with ⟨ha, hm⟩ | ⟨ha, ht, hs, hm⟩ | ⟨ha, ht, hh, hs, hm⟩
  · simp [ha, hm]
  · simp [ha, ht, hs, hm]
  · simp [ha, ht, hh, hs, hm]

/-- Witness for the amended claim C3: a trot event while in HOP. -/
theorem C3_missing_entry_witness :
    run ctrl0 stateHOPattr cmdTrot =
      (.error .keyError, ctrl0, stateHOPattr) :=
  C3_missing_entry_raises_keyerror ctrl0 stateHOPattr cmdTrot .HOP
    (.inr (.inl ⟨rfl, rfl, rfl, rfl⟩))

/-- Claim C4.  The claim says every `run` call increments `state.ticks` by
exactly 1, regardless of branch.  In the code only the DEACTIVATED
fall-through reaches `state.ticks += 1`; every other branch raises first.
Concretely, a REST-mode call with no events raises `AttributeError` on
`self.yaw_rate` and leaves `ticks` unchanged at 0. -/
theorem C4_ticks_not_incremented_on_rest :
    run ctrl0 stateRESTattr cmd0 =
        (.error (.attributeError "yaw_rate"), ctrl0, stateRESTattr) ∧
      (run ctrl0 stateRESTattr cmd0).2.2.ticks = stateRESTattr.ticks :=
  ⟨rfl, rfl⟩

/-- Claim C5.  The claim says `run` completes without raising for every
well-formed input.  In the code a well-formed FINISHHOP-mode call with no
events assigns the crouch foot locations and then raises `NameError`
looking up the undefined bare name `inverse_kinematics`. -/
theorem C5_run_raises_on_wellformed_input :
    run ctrl0 stateFINISH cmd0 =
      (.error (.nameError "inverse_kinematics"), ctrl0,
        {stateFINISH with
          foot_locations := cfg0.default_stance.addZ (-22/100)}) := rfl

/-- Claim C6.  The claim says REST-entry resets `smoothed_yaw`, every other
REST tick advances it by the clipped first-order filter of the commanded
yaw rate, and `previous_state` is updated each call.  In the code the
REST branch raises before any of this: `NameError` on the undefined name
`controller` when `previous_state != REST` (shown here), `AttributeError`
on `self.yaw_rate` otherwise; and no reachable statement of `run` ever
writes `self.smoothed_yaw` or `self.previous_state` (second conjunct:
the controller instance is returned unchanged on every input). -/
theorem C6_rest_branch_raises_and_ctrl_frozen :
    run ctrlPrevTrot stateRESTattr cmd0 =
        (.error (.nameError "controller"), ctrlPrevTrot, stateRESTattr) ∧
      ∀ (c : Ctrl) (s : State) (cmd : Command), (run c s cmd).2.1 = c :=
  ⟨rfl, fun c s cmd => run_ctrl_unchanged c s cmd⟩

/-- Claim C7.  The claim says three consecutive hop events from REST drive
the state through HOP, FINISHHOP and back to REST with the documented foot
offsets.  In the code the very first hop call does set the dispatch
attribute to HOP and the foot locations to `default_stance + [0,0,-0.09]`,
but then raises `AttributeError` evaluating the nonexistent
`self.inverse_kinematics` instead of completing (and `behavior_state`
itself never leaves REST). -/
theorem C7_first_hop_call_raises :
    run ctrl0 stateRESTattr cmdHop =
      (.error (.attributeError "inverse_kinematics"), ctrl0,
        {stateRESTattr with
          stateAttr := some .HOP,
          foot_locations := cfg0.default_stance.addZ (-9/100)}) := rfl

/-- Claim C8.  The claim says `step_gait` returns four new foot positions
and four contact flags, delegating each leg to the stance or swing
controller.  In the code `step_gait`'s first statement evaluates
`self.contacts`, an attribute `Controller.__init__` never assigns, so
every call raises `AttributeError` and nothing is delegated or
returned. -/
theorem C8_step_gait_always_raises :
    (∀ (c : Ctrl) (ticks : ℕ) (fl : Mat34) (cmd : Command),
        step_gait c ticks fl cmd = .error (.attributeError "contacts")) ∧
      "contacts" ∉ controllerInitAttrs :=
  ⟨fun _ _ _ _ => rfl, by decide⟩

/-- Claim C9.  In the TROT branch's tilt-compensation computation
(lines 114–119), the clip to `[-0.4, 0.4]` is applied before the
multiplication by `0.8`, so for every decoded roll and pitch value —
however large — the compensation magnitudes are at most
`0.32 = 8/25`. -/
theorem C9_compensation_bounded (roll pitch : ℚ) :
    |roll_compensation roll| ≤ 8/25 ∧ |pitch_compensation pitch| ≤ 8/25 := by
  have key : ∀ a : ℚ,
      |correction_factor * np_clip a (-max_tilt) max_tilt| ≤ 8/25 := by
    intro a
    have hclip : |np_clip a (-max_tilt) max_tilt| ≤ 2/5 := by
      unfold np_clip max_tilt
      refine abs_le.mpr ⟨le_min ?_ (by norm_num), min_le_right _ _⟩
      exact le_trans (le_refl _) (le_max_right _ _)
    calc |correction_factor * np_clip a (-max_tilt) max_tilt|
        = |correction_factor| * |np_clip a (-max_tilt) max_tilt| :=
          abs_mul _ _
      _ ≤ |correction_factor| * (2/5) := by
          refine mul_le_mul_of_nonneg_left hclip (abs_nonneg _)
      _ = 8/25 := by
          unfold correction_factor
          rw [abs_of_nonneg (by norm_num : (0 : ℚ) ≤ 4 / 5)]
          norm_num
  exact ⟨key roll, key pitch⟩

/-- Claim C10, counterexample.  The claim says a DEACTIVATED, no-event call
changes `ticks` and nothing else.  On a freshly constructed deactivated
state the dynamic attribute `state.state` was never assigned, so the
dispatch condition `state.state == BehaviorState.TROT` raises
`AttributeError` and *nothing* changes — not even `ticks`. -/
theorem C10_fresh_deactivated_raises :
    run ctrl0 stateDfresh cmd0 =
      (.error (.attributeError "state"), ctrl0, stateDfresh) := rfl

/-- Claim C10, amended.  When the dynamic attribute `state.state` is set
and equals DEACTIVATED and no event flag is set, `run` returns normally
and the only change anywhere is `ticks` incremented by 1:
`foot_locations`, `joint_angles`, `contact_modes`, `quat_orientation`,
`behavior_state` and the controller's `smoothed_yaw` / `previous_state`
are all unchanged.  (When `state.state` is unset, `run` instead raises
`AttributeError` and changes nothing, per the counterexample.) -/
theorem C10_deactivated_only_ticks_change (c : Ctrl) (s : State)
    (cmd : Command) (ha : cmd.activate_event = false)
    (ht : cmd.trot_event = false) (hh : cmd.hop_event = false)
    (hd : s.stateAttr = some .DEACTIVATED) :
    run c s cmd = (.ok (), c, {s with ticks := s.ticks + 1}) := by
  unfold run runDispatch
  simp [ha, ht, hh, hd]

/-- Witness for the amended claim C10 at a concrete deactivated state. -/
theorem C10_deactivated_witness :
    run ctrl0 stateD cmd0 = (.ok (), ctrl0, {stateD with ticks := stateD.ticks + 1}) :=
  C10_deactivated_only_ticks_change ctrl0 stateD cmd0 rfl rfl rfl rfl
